import Mathlib

/-!
Verification development for the welding demo node
(`src/welding_demo_node.cpp`).

The program builds, each iteration of its demo loop, a ring of 13 Cartesian
waypoints on a circle of radius 0.2 around the center point (0.2, 0, 0.8),
oriented toward that center, then plans, visualizes and executes the path,
gated by operator prompts.  We embed:

* the tf2 / Eigen vector and quaternion arithmetic used by the waypoint
  generation loop, over the real numbers (the C++ code computes with
  floating point doubles; the geometric claims are about the ideal
  geometry these library calls implement);
* the `for (float angle = 0; angle < 2 * M_PI; angle += 0.5)` loop counter
  exactly, over the rationals: every value the binary32 counter takes
  (multiples of one half up to 6.5) is exactly representable, every
  increment is exact, and the double constant `2 * M_PI` is the exact
  rational `884279719003555 / 2^47`, so the rational model is
  bit-faithful to the float loop;
* the observable behavior of `main` (library calls, prompts, log calls)
  as a trace of events, parameterized by the values the external
  libraries return (the Cartesian-path fraction, the planned trajectory,
  and the error code returned by `execute`).
-/

namespace WeldingDemo

/-- A 3-d vector of reals, modelling `tf2::Vector3` / `Eigen::Vector3d`. -/
structure V3 where
  x : ℝ
  y : ℝ
  z : ℝ

/-- Componentwise vector addition (`tf2::Vector3::operator+`). -/
def vadd (a b : V3) : V3 := ⟨a.x + b.x, a.y + b.y, a.z + b.z⟩

/-- Componentwise vector subtraction. -/
def vsub (a b : V3) : V3 := ⟨a.x - b.x, a.y - b.y, a.z - b.z⟩

/-- Scalar multiple of a vector (`tf2::Vector3::operator*=`). -/
def smul (r : ℝ) (v : V3) : V3 := ⟨r * v.x, r * v.y, r * v.z⟩

/-- Dot product. -/
def dot (a b : V3) : ℝ := a.x * b.x + a.y * b.y + a.z * b.z

/-- Cross product. -/
def cross (a b : V3) : V3 :=
  ⟨a.y * b.z - a.z * b.y, a.z * b.x - a.x * b.z, a.x * b.y - a.y * b.x⟩

/-- Squared Euclidean norm. -/
def normSq (v : V3) : ℝ := dot v v

/-- Euclidean norm. -/
noncomputable def vnorm (v : V3) : ℝ := Real.sqrt (normSq v)

/-- Unit vector in the direction of `v` (`Eigen::Vector3d::normalized`);
used only at nonzero inputs. -/
noncomputable def normalize (v : V3) : V3 := smul (1 / vnorm v) v

/-- A quaternion with components in tf2 order `(x, y, z, w)`, modelling
`tf2::Quaternion` / `Eigen::Quaterniond`. -/
structure Quat where
  x : ℝ
  y : ℝ
  z : ℝ
  w : ℝ

/-- Quaternion product, exactly the component formulas of
`tf2::operator*(const Quaternion&, const Quaternion&)`. -/
def quatMul (q1 q2 : Quat) : Quat :=
  ⟨q1.w * q2.x + q1.x * q2.w + q1.y * q2.z - q1.z * q2.y,
   q1.w * q2.y + q1.y * q2.w + q1.z * q2.x - q1.x * q2.z,
   q1.w * q2.z + q1.z * q2.w + q1.x * q2.y - q1.y * q2.x,
   q1.w * q2.w - q1.x * q2.x - q1.y * q2.y - q1.z * q2.z⟩

/-- Quaternion times vector, exactly the component formulas of
`tf2::operator*(const Quaternion&, const Vector3&)`. -/
def quatMulVec (q : Quat) (v : V3) : Quat :=
  ⟨q.w * v.x + q.y * v.z - q.z * v.y,
   q.w * v.y + q.z * v.x - q.x * v.z,
   q.w * v.z + q.x * v.y - q.y * v.x,
   -q.x * v.x - q.y * v.y - q.z * v.z⟩

/-- Quaternion inverse as tf2 computes it for its (unit) rotation
quaternions: the conjugate (`tf2::Quaternion::inverse`). -/
def quatInverse (q : Quat) : Quat := ⟨-q.x, -q.y, -q.z, q.w⟩

/-- Rotation of a vector by a quaternion: `tf2::quatRotate(rotation, v)`
computes `rotation * v * rotation.inverse()` and takes the vector part.
`Eigen::Quaterniond` applies a quaternion to a vector by the same
sandwich product, so this single definition models both libraries'
rotation action. -/
def quatRotate (rotation : Quat) (v : V3) : V3 :=
  let q := quatMul (quatMulVec rotation v) (quatInverse rotation)
  ⟨q.x, q.y, q.z⟩

/-- Euler angles to quaternion, exactly the half-angle product formulas of
`tf2::Quaternion::setRPY(roll, pitch, yaw)`. -/
noncomputable def setRPY (roll pitch yaw : ℝ) : Quat :=
  let halfYaw := yaw * 0.5
  let halfPitch := pitch * 0.5
  let halfRoll := roll * 0.5
  let cosYaw := Real.cos halfYaw
  let sinYaw := Real.sin halfYaw
  let cosPitch := Real.cos halfPitch
  let sinPitch := Real.sin halfPitch
  let cosRoll := Real.cos halfRoll
  let sinRoll := Real.sin halfRoll
  ⟨sinRoll * cosPitch * cosYaw - cosRoll * sinPitch * sinYaw,
   cosRoll * sinPitch * cosYaw + sinRoll * cosPitch * sinYaw,
   cosRoll * cosPitch * sinYaw - sinRoll * sinPitch * cosYaw,
   cosRoll * cosPitch * cosYaw + sinRoll * sinPitch * sinYaw⟩

/-- Eigen's `NumTraits<double>::dummy_precision()`, the tolerance used by
`Quaterniond::FromTwoVectors` to detect antiparallel inputs. -/
noncomputable def dummyPrecision : ℝ := 1e-12

/-- Unit vector orthogonal to `v`, for `v ≠ 0`.  In the antiparallel
branch of `Eigen::Quaterniond::setFromTwoVectors` the rotation axis is
`svd.matrixV().col(2)` of the stacked matrix `[v0; v1]`, i.e. a unit
vector of its null space; with `v1` (anti)parallel to `v0` that null
space is the plane orthogonal to `v0`, so the axis is some unit vector
orthogonal to `v0`.  We model that choice with this concrete orthogonal
unit vector (structured like `Eigen::Vector3d::unitOrthogonal`); the
rotation this branch builds acts on vectors orthogonal to the axis
identically for every such choice. -/
noncomputable def nullSpaceAxis (v : V3) : V3 :=
  if v.x ≠ 0 ∨ v.y ≠ 0 then
    ⟨-v.y / Real.sqrt (v.x ^ 2 + v.y ^ 2), v.x / Real.sqrt (v.x ^ 2 + v.y ^ 2), 0⟩
  else
    ⟨0, -v.z / Real.sqrt (v.y ^ 2 + v.z ^ 2), v.y / Real.sqrt (v.y ^ 2 + v.z ^ 2)⟩

/-- The quaternion rotating vector `a` onto the direction of vector `b`:
`Eigen::Quaterniond::FromTwoVectors(a, b)` (which calls
`setFromTwoVectors`).  Both branches follow Eigen's `Quaternion.h`: the
generic branch sets `w = sqrt((1+c)*2) * 0.5` and `vec = (v0 × v1) / s`;
the antiparallel branch (entered when `c < -1 + dummy_precision`) clamps
`c` to `-1`, sets `w = sqrt((1+c)/2)` and scales a unit null-space axis
by `sqrt(1 - w²)`. -/
noncomputable def fromTwoVectors (a b : V3) : Quat :=
  let v0 := normalize a
  let v1 := normalize b
  let c := dot v1 v0
  if c < -1 + dummyPrecision then
    let c2 := max c (-1)
    let axis := nullSpaceAxis v0
    let w2 := (1 + c2) * 0.5
    ⟨axis.x * Real.sqrt (1 - w2), axis.y * Real.sqrt (1 - w2),
     axis.z * Real.sqrt (1 - w2), Real.sqrt w2⟩
  else
    let axis := cross v0 v1
    let s := Real.sqrt ((1 + c) * 2)
    ⟨axis.x / s, axis.y / s, axis.z / s, s * 0.5⟩

/-- A pose message (`geometry_msgs::msg::Pose`): a position and an
orientation quaternion. -/
structure Pose where
  position : V3
  orientation : Quat

/-- The exact rational value of the double-precision constant `2 * M_PI`
(`M_PI` is the IEEE-754 binary64 number closest to π, and doubling it is
exact). -/
def twoPiDouble : ℚ := 884279719003555 / 2 ^ 47

/-- The values taken by the loop counter of
`for (float angle = 0; angle < 2 * M_PI; angle += 0.5)`, starting from
`a`.  The binary32 counter only ever holds multiples of one half between
0 and 6.5, all exactly representable, and each `+= 0.5` is exact, so the
rational recursion is bit-faithful to the float loop; the comparison
promotes the float to double and compares with the exact rational
`twoPiDouble`.  Well-founded recursion on the gap to the bound makes
termination of the loop a theorem. -/
def floatAngles (a : ℚ) : List ℚ :=
  if h : a < twoPiDouble then a :: floatAngles (a + 1 / 2) else []
termination_by (Int.ceil ((twoPiDouble - a) * 2)).toNat
decreasing_by
  have hx : (0 : ℚ) < (twoPiDouble - a) * 2 := by linarith
  have h1 : (twoPiDouble - (a + 1 / 2)) * 2 = (twoPiDouble - a) * 2 - 1 := by ring
  rw [h1, Int.ceil_sub_one]
  have h2 : 0 < Int.ceil ((twoPiDouble - a) * 2) := Int.ceil_pos.mpr hx
  omega

/-- The circle center `center_pos = tf2::Vector3(0.2, 0, 0.8)`. -/
noncomputable def center_pos : V3 := ⟨0.2, 0, 0.8⟩

/-- The body of the waypoint-generation loop at loop-counter value
`angle`: exactly the statements of the loop in `main`, from
`q_rot.setRPY(0, 0, angle)` to `waypoints.push_back(robot_pose)`.
`goal_dir` is `tf2::Vector3(1, 0, 0)` scaled by `goal_dir *= 0.2`. -/
noncomputable def mkWaypoint (angle : ℝ) : Pose :=
  let goal_dir : V3 := smul 0.2 ⟨1, 0, 0⟩
  let goal_pos := vadd center_pos (quatRotate (setRPY 0 0 angle) goal_dir)
  let norm_vec := quatRotate (setRPY 0 0 (Real.pi - angle)) goal_dir
  let quat := fromTwoVectors norm_vec ⟨1, 0, 0⟩
  { position := goal_pos, orientation := quat }

/-- The waypoint list one iteration of the demo loop builds:
`std::vector<geometry_msgs::msg::Pose> waypoints;` starts empty and the
generation loop `push_back`s one pose per counter value. -/
noncomputable def demoWaypoints : List Pose :=
  (floatAngles 0).foldl (fun wps (a : ℚ) => wps ++ [mkWaypoint (a : ℝ)]) []

/-- The planning group declared by `main`:
`static const std::string PLANNING_GROUP = "ur_manipulator";`. -/
def PLANNING_GROUP : String := "ur_manipulator"

/-- The `MoveGroupInterface` class: all we need of it is the planning
group it was constructed for. -/
structure MoveGroupInterface where
  planningGroup : String

/-- The single `MoveGroupInterface` constructed by `main`:
`moveit::planning_interface::MoveGroupInterface move_group(welding_demo_node, PLANNING_GROUP);`. -/
def move_group : MoveGroupInterface := ⟨PLANNING_GROUP⟩

/-- `const double eef_step = 0.01;`. -/
noncomputable def eef_step : ℝ := 0.01

/-- `const double jump_threshold = 0.0;`. -/
noncomputable def jump_threshold : ℝ := 0.0

/-- The translation of `text_pose` (an identity isometry whose
translation z component is set to 1.0). -/
noncomputable def text_pose : V3 := ⟨0, 0, 1.0⟩

/-- The first prompt message of each loop iteration (two adjacent C++
string literals). -/
def promptPlanMsg : String :=
  "Press 'next' in the RvizVisualToolsGui window to create a plan for a test trajectory"

/-- The second prompt message of each loop iteration. -/
def promptExecMsg : String :=
  "Press 'next' in the RvizVisualToolsGui window to execute the trajectory"

/-- An opaque handle for the `moveit_msgs::msg::RobotTrajectory` that
`computeCartesianPath` fills in; its contents are produced by the
external planning library. -/
structure RobotTrajectory where
  id : ℕ

/-- One observable action of `main`: a call into the middleware,
planning, or visualization library, or a log statement.  Constructor
order follows the source. -/
inductive Event where
  | rclcppInit
  | makeNode (name : String)
  | executorAddNode
  | spawnDetachedThread
  | constructMoveGroup (group : String)
  | constructPlanningSceneInterface
  | constructVisualTools (baseFrame : String)
  | deleteAllMarkers
  | loadRemoteControl
  | publishText (pose : V3) (msg : String)
  | trigger
  | logText (msg : String)
  | printGroupNames (names : List String)
  | prompt (msg : String)
  | logQRot (q : Quat)
  | computeCartesianPath (group : String) (waypoints : List Pose)
      (eefStep jumpThreshold : ℝ)
  | logFraction (percent : ℝ)
  | publishPath (waypoints : List Pose)
  | publishAxisLabeled (p : Pose) (label : String)
  | execute (group : String) (traj : RobotTrajectory)
  | shutdown

/-- The calls `main` performs before entering the demo loop, lines 22-91
of the source, in order.  `planningFrame`, `eefLink` and `groupNames`
are the strings returned by the robot-state queries; they come from the
external middleware.  The fourth event is
`std::thread([&executor]() { executor.spin(); }).detach();` — a thread
created (then detached) by this program, whose body is the middleware
executor's spin loop. -/
noncomputable def setupTrace (planningFrame eefLink : String)
    (groupNames : List String) : List Event :=
  [Event.rclcppInit,
   Event.makeNode "welding_demo_node",
   Event.executorAddNode,
   Event.spawnDetachedThread,
   Event.constructMoveGroup move_group.planningGroup,
   Event.constructPlanningSceneInterface,
   Event.constructVisualTools "base_link",
   Event.deleteAllMarkers,
   Event.loadRemoteControl,
   Event.publishText text_pose "MoveGroupInterface_Demo",
   Event.trigger,
   Event.logText ("Planning frame: " ++ planningFrame),
   Event.logText ("End effector link: " ++ eefLink),
   Event.logText "Available Planning Groups:",
   Event.printGroupNames groupNames]

/-- The observable actions of ONE iteration of the demo loop
(lines 93-161), in source order, as a function of the values returned by
the external library during that iteration: the `fraction` returned by
`computeCartesianPath`, the `trajectory` it fills in, and the error code
returned by `execute` (named `_execResult` because the source discards
it).  The generation loop contributes one `RCLCPP_INFO` of `q_rot`
(whose value at the log point is `setRPY(0, 0, M_PI - angle)`) per
waypoint; the visualization loop contributes one labeled axis per
waypoint. -/
noncomputable def iterationTrace (fraction : ℝ) (trajectory : RobotTrajectory)
    (_execResult : Int) : List Event :=
  [Event.prompt promptPlanMsg]
  ++ (floatAngles 0).map (fun (a : ℚ) => Event.logQRot (setRPY 0 0 (Real.pi - (a : ℝ))))
  ++ [Event.computeCartesianPath move_group.planningGroup demoWaypoints
        eef_step jump_threshold,
      Event.logFraction (fraction * 100.0),
      Event.deleteAllMarkers,
      Event.publishText text_pose "Cartesian_Path",
      Event.publishPath demoWaypoints]
  ++ demoWaypoints.enum.map
      (fun ip => Event.publishAxisLabeled ip.2 ("pt" ++ toString ip.1))
  ++ [Event.trigger,
      Event.prompt promptExecMsg,
      Event.execute move_group.planningGroup trajectory,
      Event.deleteAllMarkers,
      Event.trigger]

/-- The literal controlling condition of the demo loop, `while (1)`. -/
def loopGuard : Int := 1

/-- Control-flow outcome of one execution of the loop body. -/
inductive LoopSignal where
  | next
  | brk
  | ret

/-- Control-flow outcome of the demo-loop body: the body (lines 95-160)
contains no `break` and no `return`, so for every value the external
library returns the body runs to completion and the loop continues. -/
def iterationSignal (_fraction : ℝ) (_trajectory : RobotTrajectory)
    (_execResult : Int) : LoopSignal := LoopSignal.next

/-- Everything the external world chooses during a run: the strings the
state queries return and, for each iteration `n`, the values returned by
`computeCartesianPath` and `execute`. -/
structure Env where
  planningFrame : String
  eefLink : String
  groupNames : List String
  fraction : ℕ → ℝ
  trajectory : ℕ → RobotTrajectory
  execResult : ℕ → Int

/-- The trace of a run of `main` after the setup and `n` complete
iterations of the demo loop. -/
noncomputable def mainTrace (env : Env) : ℕ → List Event
  | 0 => setupTrace env.planningFrame env.eefLink env.groupNames
  | n + 1 => mainTrace env n
      ++ iterationTrace (env.fraction n) (env.trajectory n) (env.execResult n)

/-- Predicate picking out operator-confirmation prompts. -/
def Event.isPrompt : Event → Bool
  | Event.prompt _ => true
  | _ => false

/-- Predicate picking out `execute` calls. -/
def Event.isExecute : Event → Bool
  | Event.execute _ _ => true
  | _ => false

/-- Predicate picking out the program's own thread creation. -/
def Event.isSpawnThread : Event → Bool
  | Event.spawnDetachedThread => true
  | _ => false

/-- Predicate picking out the post-loop `rclcpp::shutdown` call. -/
def Event.isShutdown : Event → Bool
  | Event.shutdown => true
  | _ => false

/-- The planning group an event talks to, for the two calls that go
through the `MoveGroupInterface`. -/
def Event.moveGroupOf : Event → Option String
  | Event.computeCartesianPath g _ _ _ => some g
  | Event.execute g _ => some g
  | _ => none

/-- The waypoint lists handed to `computeCartesianPath`. -/
def plannedWaypointLists (trace : List Event) : List (List Pose) :=
  trace.filterMap fun e =>
    match e with
    | Event.computeCartesianPath _ wps _ _ => some wps
    | _ => none

/-- The `(eef_step, jump_threshold)` argument pairs of the
`computeCartesianPath` calls in a trace. -/
def planningStepArgs (trace : List Event) : List (ℝ × ℝ) :=
  trace.filterMap fun e =>
    match e with
    | Event.computeCartesianPath _ _ st jt => some (st, jt)
    | _ => none

/-- The planning groups addressed by the `MoveGroupInterface` calls
(planning and execution) in a trace. -/
def moveGroupCalls (trace : List Event) : List String :=
  trace.filterMap Event.moveGroupOf

/-- Predicate picking out the construction of a `MoveGroupInterface`. -/
def Event.isConstructMoveGroup : Event → Bool
  | Event.constructMoveGroup _ => true
  | _ => false

/-- The program-owned variables that are alive across iterations of the
demo loop: everything `main` declares before `while (1)`.  None of them
is a pose list; the pose list `waypoints` is a local of the loop body. -/
structure OuterState where
  nodeName : String
  moveGroup : MoveGroupInterface
  baseFrame : String
  textPose : V3

/-- One iteration of the demo loop as a transformer of the program-owned
outer state: the body (lines 95-160) declares only loop-local variables
(`waypoints`, `robot_pose`, `center_pos`, `goal_pos`, `goal_dir`,
`norm_vec`, `q_rot`, `trajectory`, `jump_threshold`, `eef_step`,
`fraction`) and contains no assignment to any variable declared outside
the loop, so it leaves the outer state unchanged and emits the
iteration's events. -/
noncomputable def runIteration (s : OuterState) (fraction : ℝ)
    (trajectory : RobotTrajectory) (execResult : Int) :
    OuterState × List Event :=
  (s, iterationTrace fraction trajectory execResult)

/-! ### Lemmas about the float loop counter -/

/-- While the counter is below the bound the loop body runs once and the
loop continues at `a + 0.5`. -/
theorem floatAngles_cons (a : ℚ) (h : a < twoPiDouble) :
    floatAngles a = a :: floatAngles (a + 1 / 2) := by
  rw [floatAngles]
  exact dif_pos h

/-- Once the counter reaches the bound the loop stops. -/
theorem floatAngles_nil (a : ℚ) (h : ¬ a < twoPiDouble) : floatAngles a = [] := by
  rw [floatAngles]
  exact dif_neg h

/-- The counter values of the waypoint-generation loop: thirteen
multiples of one half, from 0 to 6; the value 6.5 fails the comparison
with the double constant `2 * M_PI` and the loop terminates. -/
theorem floatAngles_zero :
    floatAngles 0
      = [0, 1/2, 1, 3/2, 2, 5/2, 3, 7/2, 4, 9/2, 5, 11/2, 6] := by
  rw [floatAngles_cons _ (by norm_num [twoPiDouble]),
      floatAngles_cons _ (by norm_num [twoPiDouble]),
      floatAngles_cons _ (by norm_num [twoPiDouble]),
      floatAngles_cons _ (by norm_num [twoPiDouble]),
      floatAngles_cons _ (by norm_num [twoPiDouble]),
      floatAngles_cons _ (by norm_num [twoPiDouble]),
      floatAngles_cons _ (by norm_num [twoPiDouble]),
      floatAngles_cons _ (by norm_num [twoPiDouble]),
      floatAngles_cons _ (by norm_num [twoPiDouble]),
      floatAngles_cons _ (by norm_num [twoPiDouble]),
      floatAngles_cons _ (by norm_num [twoPiDouble]),
      floatAngles_cons _ (by norm_num [twoPiDouble]),
      floatAngles_cons _ (by norm_num [twoPiDouble]),
      floatAngles_nil _ (by norm_num [twoPiDouble])]
  norm_num

/-- Appending one element per `foldl` step from an arbitrary accumulator
is the accumulator followed by the mapped list: the `push_back` loop
starting from the empty vector builds exactly the mapped list. -/
theorem foldl_push_eq_map (f : ℚ → Pose) :
    ∀ (l : List ℚ) (acc : List Pose),
      l.foldl (fun wps a => wps ++ [f a]) acc = acc ++ l.map f := by
  intro l
  induction l with
  | nil => intro acc; simp
  | cons a l ih =>
    intro acc
    simp [ih, List.append_assoc]

/-- The waypoint list is the image of the loop-counter values under the
loop body. -/
theorem demoWaypoints_eq_map :
    demoWaypoints = (floatAngles 0).map (fun (a : ℚ) => mkWaypoint (a : ℝ)) := by
  rw [demoWaypoints, foldl_push_eq_map]
  simp

/-- The demo waypoint list has exactly 13 entries. -/
theorem demoWaypoints_length : demoWaypoints.length = 13 := by
  rw [demoWaypoints_eq_map, List.length_map, floatAngles_zero]
  rfl

/-! ### Lemmas about the waypoint geometry -/

/-- With zero roll and pitch, `setRPY` is the pure yaw quaternion. -/
theorem setRPY_yaw (y : ℝ) :
    setRPY 0 0 y = ⟨0, 0, Real.sin (y * 0.5), Real.cos (y * 0.5)⟩ := by
  simp [setRPY]

/-- Rotating a vector on the x-axis by the yaw quaternion for angle `θ`
turns it by `θ` in the x-y plane. -/
theorem quatRotate_yaw (θ r : ℝ) :
    quatRotate (setRPY 0 0 θ) ⟨r, 0, 0⟩ = ⟨r * Real.cos θ, r * Real.sin θ, 0⟩ := by
  have hpy := Real.sin_sq_add_cos_sq (θ * 0.5)
  have hc : Real.cos θ = Real.cos (θ * 0.5) ^ 2 - Real.sin (θ * 0.5) ^ 2 := by
    conv_lhs => rw [show θ = 2 * (θ * 0.5) by ring]
    rw [Real.cos_two_mul]
    nlinarith
  have hs : Real.sin θ = 2 * Real.sin (θ * 0.5) * Real.cos (θ * 0.5) := by
    conv_lhs => rw [show θ = 2 * (θ * 0.5) by ring]
    rw [Real.sin_two_mul]
  rw [setRPY_yaw]
  simp only [quatRotate, quatMul, quatMulVec, quatInverse]
  rw [V3.mk.injEq]
  refine ⟨?_, ?_, ?_⟩
  · rw [hc]; ring
  · rw [hs]; ring
  · ring

/-- Normalizing the rotated normal vector of the generation loop yields
the unit vector at angle `π - θ` in the x-y plane. -/
theorem normalize_ring_vec (θ : ℝ) :
    normalize ⟨0.2 * Real.cos (Real.pi - θ), 0.2 * Real.sin (Real.pi - θ), 0⟩
      = ⟨-Real.cos θ, Real.sin θ, 0⟩ := by
  have hpy := Real.sin_sq_add_cos_sq θ
  have hn : normSq ⟨0.2 * Real.cos (Real.pi - θ), 0.2 * Real.sin (Real.pi - θ), 0⟩
      = (0.2 : ℝ) ^ 2 := by
    simp only [normSq, dot, Real.cos_pi_sub, Real.sin_pi_sub]
    nlinarith
  simp only [normalize, vnorm, hn, Real.sqrt_sq (by norm_num : (0:ℝ) ≤ 0.2)]
  simp only [smul, Real.cos_pi_sub, Real.sin_pi_sub]
  rw [V3.mk.injEq]
  refine ⟨?_, ?_, ?_⟩ <;> norm_num <;> ring

/-- The forward unit vector normalizes to itself. -/
theorem normalize_unitx : normalize ⟨1, 0, 0⟩ = ⟨1, 0, 0⟩ := by
  have hn : normSq ⟨(1:ℝ), 0, 0⟩ = 1 := by norm_num [normSq, dot]
  simp [normalize, vnorm, hn, smul]

/-- Applying the `FromTwoVectors` orientation of a non-degenerate
waypoint (normal not antiparallel to the forward axis) to the forward
axis yields the unit vector at angle `π + θ`: the generic branch of
Eigen's construction. -/
theorem fromTwoVectors_generic (θ : ℝ) (h : Real.cos θ ≤ 1 - dummyPrecision) :
    quatRotate (fromTwoVectors
        ⟨0.2 * Real.cos (Real.pi - θ), 0.2 * Real.sin (Real.pi - θ), 0⟩ ⟨1, 0, 0⟩)
        ⟨1, 0, 0⟩
      = ⟨-Real.cos θ, -Real.sin θ, 0⟩ := by
  have hpy := Real.sin_sq_add_cos_sq θ
  have hdp : (0:ℝ) < dummyPrecision := by norm_num [dummyPrecision]
  have hclt : Real.cos θ < 1 := by linarith
  rw [fromTwoVectors]
  simp only [normalize_ring_vec, normalize_unitx]
  have hdot : dot ⟨(1:ℝ), 0, 0⟩ ⟨-Real.cos θ, Real.sin θ, 0⟩ = -Real.cos θ := by
    simp [dot]
  rw [hdot]
  rw [if_neg (by push_neg; linarith)]
  have harg : (0:ℝ) ≤ (1 + -Real.cos θ) * 2 := by linarith
  have hlt : (0:ℝ) < (1 + -Real.cos θ) * 2 := by linarith
  set s := Real.sqrt ((1 + -Real.cos θ) * 2) with hsdef
  have hs : 0 < s := Real.sqrt_pos.mpr hlt
  have hs2 : s ^ 2 = (1 + -Real.cos θ) * 2 := Real.sq_sqrt harg
  have hcross : cross ⟨-Real.cos θ, Real.sin θ, 0⟩ ⟨1, 0, 0⟩
      = ⟨0, 0, -Real.sin θ⟩ := by
    simp [cross]
  rw [hcross]
  simp only [quatRotate, quatMul, quatMulVec, quatInverse]
  rw [V3.mk.injEq]
  have hsne : s ≠ 0 := ne_of_gt hs
  refine ⟨?_, ?_, ?_⟩
  · field_simp
    nlinarith [hs2, hpy]
  · field_simp
    nlinarith [hs2, hpy]
  · field_simp

/-- Normalizing the first waypoint's normal vector. -/
theorem normalize_negx : normalize ⟨-(0.2:ℝ), 0, 0⟩ = ⟨-1, 0, 0⟩ := by
  have hn : normSq ⟨-(0.2:ℝ), 0, 0⟩ = (0.2:ℝ) ^ 2 := by norm_num [normSq, dot]
  simp only [normalize, vnorm, hn, Real.sqrt_sq (by norm_num : (0:ℝ) ≤ 0.2)]
  simp only [smul]
  rw [V3.mk.injEq]
  norm_num

/-- At the first waypoint the normal vector is exactly antiparallel to
the forward axis; Eigen's antiparallel branch produces a half-turn about
an axis orthogonal to it, which still sends the forward axis to its
negation. -/
theorem fromTwoVectors_antiparallel :
    quatRotate (fromTwoVectors ⟨-(0.2:ℝ), 0, 0⟩ ⟨1, 0, 0⟩) ⟨1, 0, 0⟩
      = ⟨-1, 0, 0⟩ := by
  rw [fromTwoVectors]
  simp only [normalize_negx, normalize_unitx]
  have hdot : dot ⟨(1:ℝ), 0, 0⟩ ⟨-1, 0, 0⟩ = -1 := by simp [dot]
  rw [hdot]
  rw [if_pos (by norm_num [dummyPrecision])]
  have hmax : max (-1 : ℝ) (-1) = -1 := max_self _
  rw [hmax]
  have haxis : nullSpaceAxis ⟨-1, 0, 0⟩ = ⟨0, -1, 0⟩ := by
    rw [nullSpaceAxis, if_pos (by norm_num)]
    norm_num
  rw [haxis]
  norm_num [quatRotate, quatMul, quatMulVec, quatInverse]

/-- Quantitative bound keeping the twelve nonzero loop angles out of
Eigen's antiparallel branch: on the angle range `[1/2, 6]` the cosine
stays below `1 - dummy_precision`. -/
theorem cos_le_on_ring (x : ℝ) (h1 : 1 / 2 ≤ x) (h2 : x ≤ 6) :
    Real.cos x ≤ 1 - dummyPrecision := by
  have hπ1 : 3.141592 < Real.pi := Real.pi_gt_d6
  have hπ2 : Real.pi < 3.141593 := Real.pi_lt_d6
  have hπsq : Real.pi ^ 2 < 10 := by nlinarith
  have hπpos : (0:ℝ) < Real.pi := by linarith
  rcases le_or_lt x Real.pi with hx | hx
  · have habs : |x| ≤ Real.pi := by
      rw [abs_of_nonneg (by linarith)]
      exact hx
    have hb := Real.cos_le_one_sub_mul_cos_sq habs
    have hkey : dummyPrecision ≤ 2 / Real.pi ^ 2 * x ^ 2 := by
      rw [div_mul_eq_mul_div, le_div_iff₀ (by positivity)]
      norm_num [dummyPrecision]
      nlinarith
    linarith
  · rw [← Real.cos_two_pi_sub]
    have habs : |2 * Real.pi - x| ≤ Real.pi := by
      rw [abs_of_nonneg (by nlinarith)]
      nlinarith
    have hb := Real.cos_le_one_sub_mul_cos_sq habs
    have hkey : dummyPrecision ≤ 2 / Real.pi ^ 2 * (2 * Real.pi - x) ^ 2 := by
      rw [div_mul_eq_mul_div, le_div_iff₀ (by positivity)]
      norm_num [dummyPrecision]
      nlinarith [sq_nonneg (2 * Real.pi - x - 0.28)]
    linarith

/-- The scaled forward vector of the generation loop. -/
theorem smul_goal_dir : smul (0.2:ℝ) ⟨1, 0, 0⟩ = (⟨0.2, 0, 0⟩ : V3) := by
  rw [smul, V3.mk.injEq]
  norm_num

/-- The position of the waypoint at loop angle `θ`. -/
theorem mkWaypoint_position (θ : ℝ) :
    (mkWaypoint θ).position = ⟨0.2 + 0.2 * Real.cos θ, 0.2 * Real.sin θ, 0.8⟩ := by
  simp only [mkWaypoint, smul_goal_dir, quatRotate_yaw]
  rw [vadd, center_pos, V3.mk.injEq]
  norm_num

/-- The orientation of the waypoint at loop angle `θ` is the
`FromTwoVectors` quaternion of the rotated normal vector. -/
theorem mkWaypoint_orientation (θ : ℝ) :
    (mkWaypoint θ).orientation
      = fromTwoVectors ⟨0.2 * Real.cos (Real.pi - θ), 0.2 * Real.sin (Real.pi - θ), 0⟩
          ⟨1, 0, 0⟩ := by
  simp only [mkWaypoint, smul_goal_dir, quatRotate_yaw]

/-- Every loop angle (zero, or with cosine below the antiparallel
threshold) yields a waypoint whose orientation sends the forward axis
onto five times the vector from the waypoint to the circle center. -/
theorem mkWaypoint_toward_center (θ : ℝ)
    (h : θ = 0 ∨ Real.cos θ ≤ 1 - dummyPrecision) :
    quatRotate (mkWaypoint θ).orientation ⟨1, 0, 0⟩
      = smul 5 (vsub center_pos (mkWaypoint θ).position) := by
  rw [mkWaypoint_position, mkWaypoint_orientation]
  rcases h with rfl | h
  · rw [show Real.pi - 0 = Real.pi by ring]
    rw [show (⟨0.2 * Real.cos Real.pi, 0.2 * Real.sin Real.pi, 0⟩ : V3)
          = ⟨-(0.2:ℝ), 0, 0⟩ by rw [V3.mk.injEq]; norm_num]
    rw [fromTwoVectors_antiparallel]
    rw [vsub, center_pos, smul, V3.mk.injEq]
    norm_num
  · rw [fromTwoVectors_generic θ h]
    rw [vsub, center_pos, smul, V3.mk.injEq]
    refine ⟨by norm_num; ring, by norm_num; ring, by norm_num⟩

/-! ### Helper lemmas about traces -/

/-- A `filterMap` that rejects every element of a list is empty. -/
theorem filterMap_eq_nil_of {α β : Type} (f : α → Option β) :
    ∀ l : List α, (∀ a ∈ l, f a = none) → l.filterMap f = [] := by
  intro l h
  induction l with
  | nil => rfl
  | cons a t ih =>
    rw [List.filterMap_cons, h a (by simp)]
    exact ih fun x hx => h x (by simp [hx])

/-- A `countP` whose predicate fails on every element of a list is zero. -/
theorem countP_eq_zero_of {α : Type} (p : α → Bool) :
    ∀ l : List α, (∀ a ∈ l, p a = false) → l.countP p = 0 := by
  intro l h
  induction l with
  | nil => rfl
  | cons a t ih =>
    rw [List.countP_cons, h a (by simp)]
    simpa using ih fun x hx => h x (by simp [hx])

/-- Every event of the per-waypoint logging segment is a `logQRot`. -/
theorem mem_qrotSeg {e : Event}
    (h : e ∈ (floatAngles 0).map
        fun (a : ℚ) => Event.logQRot (setRPY 0 0 (Real.pi - (a : ℝ)))) :
    ∃ q, e = Event.logQRot q := by
  obtain ⟨a, -, rfl⟩ := List.mem_map.1 h
  exact ⟨_, rfl⟩

/-- Every event of the per-waypoint axis-label segment is a
`publishAxisLabeled`. -/
theorem mem_axisSeg {e : Event}
    (h : e ∈ demoWaypoints.enum.map
        fun ip => Event.publishAxisLabeled ip.2 ("pt" ++ toString ip.1)) :
    ∃ p s, e = Event.publishAxisLabeled p s := by
  obtain ⟨ip, -, rfl⟩ := List.mem_map.1 h
  exact ⟨_, _, rfl⟩

/-- `plannedWaypointLists` distributes over concatenation. -/
theorem plannedWaypointLists_append (l1 l2 : List Event) :
    plannedWaypointLists (l1 ++ l2)
      = plannedWaypointLists l1 ++ plannedWaypointLists l2 := by
  unfold plannedWaypointLists
  exact List.filterMap_append _ _ _

/-- The logging segment contains no planning call. -/
theorem plannedWaypointLists_qrotSeg :
    plannedWaypointLists ((floatAngles 0).map
      fun (a : ℚ) => Event.logQRot (setRPY 0 0 (Real.pi - (a : ℝ)))) = [] :=
  filterMap_eq_nil_of _ _ fun e he => by
    obtain ⟨q, rfl⟩ := mem_qrotSeg he; rfl

/-- The axis-label segment contains no planning call. -/
theorem plannedWaypointLists_axisSeg :
    plannedWaypointLists (demoWaypoints.enum.map
      fun ip => Event.publishAxisLabeled ip.2 ("pt" ++ toString ip.1)) = [] :=
  filterMap_eq_nil_of _ _ fun e he => by
    obtain ⟨p, s, rfl⟩ := mem_axisSeg he; rfl

/-! ### The claims -/

/-- C1: every waypoint generated in a demo-loop iteration is oriented
toward the center point: applying the waypoint's orientation quaternion
(built by `Eigen::Quaterniond::FromTwoVectors` from the rotated normal
vector) to the forward axis yields a positive multiple of the vector
from the waypoint's position to the circle center `(0.2, 0, 0.8)`. -/
theorem c1_waypoints_oriented_toward_center :
    ∀ p ∈ demoWaypoints, ∃ t : ℝ, 0 < t ∧
      quatRotate p.orientation ⟨1, 0, 0⟩ = smul t (vsub center_pos p.position) := by
  intro p hp
  rw [demoWaypoints_eq_map, floatAngles_zero] at hp
  simp only [List.map_cons, List.map_nil, List.mem_cons, List.not_mem_nil,
    or_false] at hp
  refine ⟨5, by norm_num, ?_⟩
  rcases hp with rfl | rfl | rfl | rfl | rfl | rfl | rfl | rfl | rfl | rfl | rfl | rfl | rfl
  · exact mkWaypoint_toward_center _ (Or.inl (by norm_num))
  all_goals
    exact mkWaypoint_toward_center _
      (Or.inr (cos_le_on_ring _ (by push_cast; norm_num) (by push_cast; norm_num)))

/-- Witness for C1 at the first generated waypoint. -/
theorem c1_witness :
    ∃ t : ℝ, 0 < t ∧
      quatRotate (mkWaypoint ((0 : ℚ) : ℝ)).orientation ⟨1, 0, 0⟩
        = smul t (vsub center_pos (mkWaypoint ((0 : ℚ) : ℝ)).position) :=
  c1_waypoints_oriented_toward_center (mkWaypoint ((0 : ℚ) : ℝ))
    (by rw [demoWaypoints_eq_map]
        exact List.mem_map_of_mem _ (by rw [floatAngles_zero]; simp))

/-- C2: every waypoint generated in a demo-loop iteration lies on the
pre-programmed circle: its z coordinate is 0.8 and its distance in the
x-y plane from the center point `(0.2, 0, 0.8)` is the radius 0.2. -/
theorem c2_waypoints_on_circle :
    ∀ p ∈ demoWaypoints, p.position.z = 0.8 ∧
      Real.sqrt ((p.position.x - center_pos.x) ^ 2
        + (p.position.y - center_pos.y) ^ 2) = 0.2 := by
  intro p hp
  rw [demoWaypoints_eq_map] at hp
  obtain ⟨a, -, rfl⟩ := List.mem_map.1 hp
  rw [mkWaypoint_position]
  refine ⟨rfl, ?_⟩
  simp only [center_pos]
  have hpy := Real.sin_sq_add_cos_sq ((a : ℝ))
  have h2 : (0.2 + 0.2 * Real.cos (a : ℝ) - 0.2) ^ 2
      + (0.2 * Real.sin (a : ℝ) - 0) ^ 2 = (0.2 : ℝ) ^ 2 := by
    nlinarith
  rw [h2, Real.sqrt_sq (by norm_num : (0:ℝ) ≤ 0.2)]

/-- Witness for C2 at the first generated waypoint. -/
theorem c2_witness :
    (mkWaypoint ((0 : ℚ) : ℝ)).position.z = 0.8 ∧
      Real.sqrt (((mkWaypoint ((0 : ℚ) : ℝ)).position.x - center_pos.x) ^ 2
        + ((mkWaypoint ((0 : ℚ) : ℝ)).position.y - center_pos.y) ^ 2) = 0.2 :=
  c2_waypoints_on_circle (mkWaypoint ((0 : ℚ) : ℝ))
    (by rw [demoWaypoints_eq_map]
        exact List.mem_map_of_mem _ (by rw [floatAngles_zero]; simp))

/-- C8: the waypoint-generation loop terminates (the recursion along the
float counter is total) with exactly thirteen counter values, the built
waypoint list has exactly thirteen poses, and every iteration of the
demo loop hands the planner the same list — `demoWaypoints` does not
depend on the iteration's environment. -/
theorem c8_thirteen_waypoints :
    (floatAngles 0).length = 13 ∧ demoWaypoints.length = 13 ∧
      ∀ (fraction : ℝ) (trajectory : RobotTrajectory) (execResult : Int),
        plannedWaypointLists (iterationTrace fraction trajectory execResult)
          = [demoWaypoints] := by
  refine ⟨by rw [floatAngles_zero]; rfl, demoWaypoints_length, ?_⟩
  intro fraction trajectory execResult
  rw [iterationTrace]
  simp only [plannedWaypointLists_append, plannedWaypointLists_qrotSeg,
    plannedWaypointLists_axisSeg]
  simp [plannedWaypointLists]

/-- Counting with any predicate that ignores `logQRot` events vanishes on
the logging segment. -/
theorem countP_qrotSeg_zero (p : Event → Bool)
    (hp : ∀ q, p (Event.logQRot q) = false) :
    ((floatAngles 0).map
      fun (a : ℚ) => Event.logQRot (setRPY 0 0 (Real.pi - (a : ℝ)))).countP p = 0 :=
  countP_eq_zero_of _ _ fun e he => by
    obtain ⟨q, rfl⟩ := mem_qrotSeg he; exact hp q

/-- Counting with any predicate that ignores `publishAxisLabeled` events
vanishes on the axis-label segment. -/
theorem countP_axisSeg_zero (p : Event → Bool)
    (hp : ∀ pose s, p (Event.publishAxisLabeled pose s) = false) :
    (demoWaypoints.enum.map
      fun ip => Event.publishAxisLabeled ip.2 ("pt" ++ toString ip.1)).countP p = 0 :=
  countP_eq_zero_of _ _ fun e he => by
    obtain ⟨pose, s, rfl⟩ := mem_axisSeg he; exact hp pose s

/-- `planningStepArgs` distributes over concatenation. -/
theorem planningStepArgs_append (l1 l2 : List Event) :
    planningStepArgs (l1 ++ l2)
      = planningStepArgs l1 ++ planningStepArgs l2 := by
  unfold planningStepArgs
  exact List.filterMap_append _ _ _

/-- The logging segment contains no planning call (step arguments). -/
theorem planningStepArgs_qrotSeg :
    planningStepArgs ((floatAngles 0).map
      fun (a : ℚ) => Event.logQRot (setRPY 0 0 (Real.pi - (a : ℝ)))) = [] :=
  filterMap_eq_nil_of _ _ fun e he => by
    obtain ⟨q, rfl⟩ := mem_qrotSeg he; rfl

/-- The axis-label segment contains no planning call (step arguments). -/
theorem planningStepArgs_axisSeg :
    planningStepArgs (demoWaypoints.enum.map
      fun ip => Event.publishAxisLabeled ip.2 ("pt" ++ toString ip.1)) = [] :=
  filterMap_eq_nil_of _ _ fun e he => by
    obtain ⟨p, s, rfl⟩ := mem_axisSeg he; rfl

/-- `moveGroupCalls` distributes over concatenation. -/
theorem moveGroupCalls_append (l1 l2 : List Event) :
    moveGroupCalls (l1 ++ l2) = moveGroupCalls l1 ++ moveGroupCalls l2 := by
  unfold moveGroupCalls
  exact List.filterMap_append _ _ _

/-- The logging segment makes no `MoveGroupInterface` call. -/
theorem moveGroupCalls_qrotSeg :
    moveGroupCalls ((floatAngles 0).map
      fun (a : ℚ) => Event.logQRot (setRPY 0 0 (Real.pi - (a : ℝ)))) = [] :=
  filterMap_eq_nil_of _ _ fun e he => by
    obtain ⟨q, rfl⟩ := mem_qrotSeg he; rfl

/-- The axis-label segment makes no `MoveGroupInterface` call. -/
theorem moveGroupCalls_axisSeg :
    moveGroupCalls (demoWaypoints.enum.map
      fun ip => Event.publishAxisLabeled ip.2 ("pt" ++ toString ip.1)) = [] :=
  filterMap_eq_nil_of _ _ fun e he => by
    obtain ⟨p, s, rfl⟩ := mem_axisSeg he; rfl

/-- The iteration trace never contains the post-loop `shutdown`. -/
theorem shutdown_countP_iteration (fraction : ℝ) (trajectory : RobotTrajectory)
    (execResult : Int) :
    (iterationTrace fraction trajectory execResult).countP Event.isShutdown
      = 0 := by
  rw [iterationTrace]
  simp [List.countP_append, List.countP_cons,
    countP_qrotSeg_zero Event.isShutdown (fun q => rfl),
    countP_axisSeg_zero Event.isShutdown (fun pose s => rfl), Event.isShutdown]

/-- C3: in every iteration, the trace decomposes as the planning prompt,
then the `computeCartesianPath` call, then the path visualization
(`publishPath` followed by the per-waypoint axis labels), then the
execution prompt, and only then `execute`; moreover the iteration has
exactly two prompts and one `execute`, and everything before the
`execute` already contains both prompts. -/
theorem c3_iteration_order (fraction : ℝ) (trajectory : RobotTrajectory)
    (execResult : Int) :
    ∃ l1 l2 l3 pre,
      iterationTrace fraction trajectory execResult
        = Event.prompt promptPlanMsg :: (l1
          ++ Event.computeCartesianPath move_group.planningGroup demoWaypoints
              eef_step jump_threshold :: (l2
          ++ Event.publishPath demoWaypoints :: (l3
          ++ [Event.prompt promptExecMsg,
              Event.execute move_group.planningGroup trajectory,
              Event.deleteAllMarkers, Event.trigger])))
      ∧ l3 = demoWaypoints.enum.map
            (fun ip => Event.publishAxisLabeled ip.2 ("pt" ++ toString ip.1))
          ++ [Event.trigger]
      ∧ iterationTrace fraction trajectory execResult
          = pre ++ Event.execute move_group.planningGroup trajectory
              :: [Event.deleteAllMarkers, Event.trigger]
      ∧ pre.countP Event.isPrompt = 2
      ∧ pre.countP Event.isExecute = 0
      ∧ (iterationTrace fraction trajectory execResult).countP Event.isPrompt = 2
      ∧ (iterationTrace fraction trajectory execResult).countP Event.isExecute = 1 := by
  refine ⟨(floatAngles 0).map
      (fun (a : ℚ) => Event.logQRot (setRPY 0 0 (Real.pi - (a : ℝ)))),
    [Event.logFraction (fraction * 100.0), Event.deleteAllMarkers,
      Event.publishText text_pose "Cartesian_Path"],
    demoWaypoints.enum.map
      (fun ip => Event.publishAxisLabeled ip.2 ("pt" ++ toString ip.1))
      ++ [Event.trigger],
    Event.prompt promptPlanMsg :: ((floatAngles 0).map
      (fun (a : ℚ) => Event.logQRot (setRPY 0 0 (Real.pi - (a : ℝ))))
      ++ Event.computeCartesianPath move_group.planningGroup demoWaypoints
          eef_step jump_threshold
        :: ([Event.logFraction (fraction * 100.0), Event.deleteAllMarkers,
            Event.publishText text_pose "Cartesian_Path"]
      ++ Event.publishPath demoWaypoints
        :: (demoWaypoints.enum.map
            (fun ip => Event.publishAxisLabeled ip.2 ("pt" ++ toString ip.1))
      ++ [Event.trigger, Event.prompt promptExecMsg]))), ?_, rfl, ?_, ?_, ?_, ?_, ?_⟩
  · rw [iterationTrace]
    simp [List.append_assoc]
  · rw [iterationTrace]
    simp [List.append_assoc]
  · simp [List.countP_append, List.countP_cons,
      countP_qrotSeg_zero Event.isPrompt (fun q => rfl),
      countP_axisSeg_zero Event.isPrompt (fun pose s => rfl), Event.isPrompt]
  · simp [List.countP_append, List.countP_cons,
      countP_qrotSeg_zero Event.isExecute (fun q => rfl),
      countP_axisSeg_zero Event.isExecute (fun pose s => rfl), Event.isExecute]
  · rw [iterationTrace]
    simp [List.countP_append, List.countP_cons,
      countP_qrotSeg_zero Event.isPrompt (fun q => rfl),
      countP_axisSeg_zero Event.isPrompt (fun pose s => rfl), Event.isPrompt]
  · rw [iterationTrace]
    simp [List.countP_append, List.countP_cons,
      countP_qrotSeg_zero Event.isExecute (fun q => rfl),
      countP_axisSeg_zero Event.isExecute (fun pose s => rfl), Event.isExecute]

/-- C4 counterexample: the background spin thread is not created by the
external middleware — `main` itself constructs and detaches it
(`std::thread([&executor]() { executor.spin(); }).detach();`), as the
setup trace at a concrete environment shows. -/
theorem c4_counterexample_thread_created_by_program :
    Event.spawnDetachedThread ∈ setupTrace "base_link" "tool0" [] := by
  simp [setupTrace]

/-- C4 amended: the program implements no concurrency primitive of its
own beyond creating the single background spin thread itself: every run
contains exactly one program thread creation — in setup, running the
middleware executor's spin loop, immediately detached — and the demo
loop creates none. -/
theorem c4_amended_single_program_thread :
    (∀ pf el gs, (setupTrace pf el gs).countP Event.isSpawnThread = 1) ∧
    (∀ (fraction : ℝ) (trajectory : RobotTrajectory) (execResult : Int),
      (iterationTrace fraction trajectory execResult).countP
        Event.isSpawnThread = 0) ∧
    ∀ (env : Env) (n : ℕ), (mainTrace env n).countP Event.isSpawnThread = 1 := by
  have hiter : ∀ (fraction : ℝ) (trajectory : RobotTrajectory) (execResult : Int),
      (iterationTrace fraction trajectory execResult).countP
        Event.isSpawnThread = 0 := by
    intro f traj c
    rw [iterationTrace]
    simp [List.countP_append, List.countP_cons,
      countP_qrotSeg_zero Event.isSpawnThread (fun q => rfl),
      countP_axisSeg_zero Event.isSpawnThread (fun pose s => rfl),
      Event.isSpawnThread]
  have hsetup : ∀ pf el gs,
      (setupTrace pf el gs).countP Event.isSpawnThread = 1 := by
    intro pf el gs
    simp [setupTrace, List.countP_cons, Event.isSpawnThread]
  refine ⟨hsetup, hiter, ?_⟩
  intro env n
  induction n with
  | zero => exact hsetup _ _ _
  | succ n ih =>
    rw [mainTrace, List.countP_append, ih, hiter]

/-- C5 counterexample: the error code returned by `execute` is received
but never logged — the iteration trace is bit-for-bit identical whether
`execute` returns 0 or 5, so no log statement (nor any other action)
reflects it. -/
theorem c5_counterexample_execute_code_not_logged :
    iterationTrace 1 ⟨0⟩ 0 = iterationTrace 1 ⟨0⟩ 5 := rfl

/-- C5 amended: failure handling is delegated to the external library's
return codes, of which only the fraction returned by
`computeCartesianPath` is logged (as a percentage) in every iteration;
the error code returned by `execute` is discarded — the trace does not
depend on it. -/
theorem c5_amended_fraction_logged_execute_code_discarded :
    ∀ (fraction : ℝ) (trajectory : RobotTrajectory) (execResult : Int),
      Event.logFraction (fraction * 100.0)
          ∈ iterationTrace fraction trajectory execResult ∧
        ∀ execResult' : Int,
          iterationTrace fraction trajectory execResult
            = iterationTrace fraction trajectory execResult' := by
  intro fraction trajectory execResult
  refine ⟨?_, fun _ => rfl⟩
  rw [iterationTrace]
  simp

/-- C6: the pose list is transient and owned within a single iteration:
the demo loop body leaves the program-owned outer state (which holds no
pose list) unchanged, the waypoint list is the image of the counter
values under the generation body starting from the empty vector, and
exactly that list is what the iteration passes to
`computeCartesianPath`, `publishPath` and each `publishAxisLabeled`. -/
theorem c6_transient_pose_list :
    (∀ (s : OuterState) (fraction : ℝ) (trajectory : RobotTrajectory)
        (execResult : Int),
      (runIteration s fraction trajectory execResult).1 = s) ∧
    demoWaypoints = (floatAngles 0).map (fun (a : ℚ) => mkWaypoint (a : ℝ)) ∧
    ∀ (fraction : ℝ) (trajectory : RobotTrajectory) (execResult : Int),
      plannedWaypointLists (iterationTrace fraction trajectory execResult)
          = [demoWaypoints] ∧
        Event.publishPath demoWaypoints
          ∈ iterationTrace fraction trajectory execResult ∧
        ∀ ip ∈ demoWaypoints.enum,
          Event.publishAxisLabeled ip.2 ("pt" ++ toString ip.1)
            ∈ iterationTrace fraction trajectory execResult := by
  refine ⟨fun _ _ _ _ => rfl, demoWaypoints_eq_map, ?_⟩
  intro fraction trajectory execResult
  refine ⟨?_, ?_, ?_⟩
  · rw [iterationTrace]
    simp only [plannedWaypointLists_append, plannedWaypointLists_qrotSeg,
      plannedWaypointLists_axisSeg]
    simp [plannedWaypointLists]
  · rw [iterationTrace]
    simp
  · intro ip hip
    rw [iterationTrace]
    simp only [List.append_assoc, List.mem_append]
    exact Or.inr (Or.inr (Or.inr (Or.inl (List.mem_map_of_mem _ hip))))

/-- Witness for C6: the first waypoint's labeled axis is published in a
concrete iteration. -/
theorem c6_witness :
    Event.publishAxisLabeled (mkWaypoint ((0 : ℚ) : ℝ)) ("pt" ++ toString 0)
      ∈ iterationTrace 1 ⟨0⟩ 0 :=
  (c6_transient_pose_list.2.2 1 ⟨0⟩ 0).2.2 (0, mkWaypoint ((0 : ℚ) : ℝ))
    (by rw [demoWaypoints_eq_map, floatAngles_zero]
        simp [List.enum_cons])

/-- C7: the program declares exactly one planning group, named
`"ur_manipulator"`; the single `MoveGroupInterface` is constructed for
it once during setup, and both `MoveGroupInterface` calls of every
iteration (planning and execution) address exactly that group. -/
theorem c7_single_planning_group :
    PLANNING_GROUP = "ur_manipulator" ∧
    move_group.planningGroup = PLANNING_GROUP ∧
    (∀ pf el gs, (setupTrace pf el gs).countP Event.isConstructMoveGroup = 1) ∧
    (∀ pf el gs, Event.constructMoveGroup PLANNING_GROUP ∈ setupTrace pf el gs) ∧
    ∀ (fraction : ℝ) (trajectory : RobotTrajectory) (execResult : Int),
      moveGroupCalls (iterationTrace fraction trajectory execResult)
        = [PLANNING_GROUP, PLANNING_GROUP] := by
  refine ⟨rfl, rfl, ?_, ?_, ?_⟩
  · intro pf el gs
    simp [setupTrace, List.countP_cons, Event.isConstructMoveGroup]
  · intro pf el gs
    simp [setupTrace, move_group]
  · intro fraction trajectory execResult
    rw [iterationTrace]
    simp only [moveGroupCalls_append, moveGroupCalls_qrotSeg,
      moveGroupCalls_axisSeg]
    simp [moveGroupCalls, Event.moveGroupOf, move_group]

/-- C9: every `computeCartesianPath` call the program makes uses the
constant maximum end-effector step `eef_step = 0.01` and the constant
`jump_threshold = 0.0`, i.e. the jump-threshold check is disabled on
every planning call. -/
theorem c9_planning_constants :
    eef_step = 0.01 ∧ jump_threshold = 0 ∧
    ∀ (fraction : ℝ) (trajectory : RobotTrajectory) (execResult : Int),
      planningStepArgs (iterationTrace fraction trajectory execResult)
        = [(eef_step, jump_threshold)] := by
  refine ⟨rfl, by norm_num [jump_threshold], ?_⟩
  intro fraction trajectory execResult
  rw [iterationTrace]
  simp only [planningStepArgs_append, planningStepArgs_qrotSeg,
    planningStepArgs_axisSeg]
  simp [planningStepArgs]

/-- C10: the demo loop never exits: its guard is the constant 1, its
body signals neither `break` nor `return` for any library results, and
consequently no finite prefix of any run ever contains the post-loop
`rclcpp::shutdown` — `main` never terminates normally. -/
theorem c10_loop_never_exits :
    loopGuard = 1 ∧ (loopGuard = 0) = False ∧
    (∀ (fraction : ℝ) (trajectory : RobotTrajectory) (execResult : Int),
      iterationSignal fraction trajectory execResult = LoopSignal.next) ∧
    ∀ (env : Env) (n : ℕ),
      (mainTrace env n).countP Event.isShutdown = 0 := by
  refine ⟨rfl, by simp [loopGuard], fun _ _ _ => rfl, ?_⟩
  intro env n
  induction n with
  | zero => simp [mainTrace, setupTrace, List.countP_cons, Event.isShutdown]
  | succ n ih =>
    rw [mainTrace, List.countP_append, ih, shutdown_countP_iteration]

end WeldingDemo
